import Mathlib

/-!
Verification of the text-scoring engine of the resume-analyzer application
(`src/resume analyzer/app.py`) against its natural-language specification.

The scoring core is shallowly embedded: every scoring function is translated
from the Python source into an executable Lean definition.  Modelling choices,
each noted again at the definition it concerns:

* Python floats are modelled by `ℚ`; the float literals `0.2`, `0.3`, ... are
  modelled by the exact rationals they denote in the source text.
* Python regexes are specialised to the concrete patterns appearing in the
  source; each translation is justified in a comment at its definition.
* Character classes (`\w`, `str.isalpha`, `str.lower`, ...) are modelled with
  their ASCII semantics (the Lean `Char` predicates), which agree with Python
  on all ASCII text.
* `calculate_match_score` raises `ZeroDivisionError` in the source when the
  job-description token set is empty; the embedding returns `Option ℚ` and
  models the raised exception by `none`.
-/

/-- Python regex `\w` (ASCII): letters, digits and underscore. -/
def isWordChar (c : Char) : Bool := c.isAlphanum || c == '_'

/-- Python regex `\s` (ASCII): space, tab, newline, carriage return,
vertical tab, form feed. -/
def isSpaceRe (c : Char) : Bool :=
  c == ' ' || c == '\t' || c == '\n' || c == '\r' ||
  c == Char.ofNat 11 || c == Char.ofNat 12

/-- Lower-case every character (ASCII), modelling Python `str.lower()`. -/
def lowerList (cs : List Char) : List Char := cs.map Char.toLower

/-- Lower-case a string, modelling Python `str.lower()`. -/
def lowerStr (s : String) : String := String.mk (lowerList s.data)

/-- One needle list occurs inside the haystack list (substring test). -/
def infixOf (needle : List Char) : List Char → Bool
  | [] => needle == []
  | c :: cs => needle.isPrefixOf (c :: cs) || infixOf needle cs

/-- Accumulator-based scanner for the maximal `\w+` runs of a text: `acc`
holds the reversed characters of the run currently being read. -/
def wordRunsAux : List Char → List Char → List (List Char)
  | acc, [] => if acc.isEmpty then [] else [acc.reverse]
  | acc, c :: cs =>
    if isWordChar c then wordRunsAux (c :: acc) cs
    else if acc.isEmpty then wordRunsAux [] cs
    else acc.reverse :: wordRunsAux [] cs

/-- Maximal runs of `\w` characters, modelling Python
`re.findall(r'\w+', text)`. -/
def wordRuns (cs : List Char) : List (List Char) := wordRunsAux [] cs

/-- `len(re.findall(r'\w+', text))`, the word count used by `check_length`
and by the length feedback in `generate_feedback`. -/
def wordCount (text : String) : Nat := (wordRuns text.data).length

/-- The NLTK English stop-word list used by `calculate_keyword_density`
(`stopwords.words('english')`), restricted to its entries that contain no
apostrophe.  The dropped entries (contraction forms) contain an apostrophe
and can therefore never equal a token of `calculate_keyword_density`, whose
tokens pass Python `str.isalpha`; dropping them does not change the
behaviour of any embedded function on any input. -/
def nltkStopwords : List String :=
  ["i", "me", "my", "myself", "we", "our", "ours", "ourselves", "you",
   "your", "yours", "yourself", "yourselves", "he", "him", "his", "himself",
   "she", "her", "hers", "herself", "it", "its", "itself", "they", "them",
   "their", "theirs", "themselves", "what", "which", "who", "whom", "this",
   "that", "these", "those", "am", "is", "are", "was", "were", "be", "been",
   "being", "have", "has", "had", "having", "do", "does", "did", "doing",
   "a", "an", "the", "and", "but", "if", "or", "because", "as", "until",
   "while", "of", "at", "by", "for", "with", "about", "against", "between",
   "into", "through", "during", "before", "after", "above", "below", "to",
   "from", "up", "down", "in", "out", "on", "off", "over", "under", "again",
   "further", "then", "once", "here", "there", "when", "where", "why",
   "how", "all", "any", "both", "each", "few", "more", "most", "other",
   "some", "such", "no", "nor", "not", "only", "own", "same", "so", "than",
   "too", "very", "s", "t", "can", "will", "just", "don", "should", "now",
   "d", "ll", "m", "o", "re", "ve", "y", "ain", "aren", "couldn", "didn",
   "doesn", "hadn", "hasn", "haven", "isn", "ma", "mightn", "mustn",
   "needn", "shan", "shouldn", "wasn", "weren", "won", "wouldn"]

/-- Source list `ACTION_VERBS`. -/
def ACTION_VERBS : List String :=
  ["achieved", "managed", "developed", "led", "implemented",
   "increased", "reduced", "optimized", "created", "designed"]

/-- Source `calculate_keyword_density`: take the `\w+` tokens that are purely
alphabetic, lower-case them, drop stop-words, count distinct remaining words
(`len(Counter(filtered_words))`), normalise by 50 and clamp to 1. -/
def calculate_keyword_density (text : String) : ℚ :=
  let words :=
    ((wordRuns text.data).filter (fun w => w.all Char.isAlpha)).map
      (fun w => String.mk (lowerList w))
  let filtered_words := words.filter (fun w => ¬ nltkStopwords.contains w)
  min ((filtered_words.dedup.length : ℚ) / 50) 1

/-- Source `count_action_verbs`: verbs found as substrings of the lower-cased
text (`verb in text.lower()`), normalised by 5 and clamped to 1. -/
def count_action_verbs (text : String) : ℚ :=
  let verbs_found :=
    ACTION_VERBS.filter (fun v => infixOf v.data (lowerList text.data))
  min ((verbs_found.length : ℚ) / 5) 1

/-- Word/non-word status of the previous character (`false` before the first
character of the text). -/
def boundaryB (prev : Bool) (cs : List Char) : Bool :=
  match cs with
  | [] => prev != false
  | c :: _ => prev != isWordChar c

/-- Leading run of ASCII digits, for the `\d+` pieces of the quantifier
regex. -/
def digitRun (cs : List Char) : List Char := cs.takeWhile Char.isDigit

/-- One match attempt of the source regex
`\b(\d+%|\d+\+|\$?\d+\s?[km]?|\d+\s?(years|months))\b` (flag `re.I`) at the
current position, returning the number of characters consumed.
`prev` is the word-status of the preceding character, used for the leading
`\b`.  The alternatives are tried in source order.  Backtracking inside
`\d+` is eliminated: shortening a maximal digit run leaves a digit as the
next character, which none of `%`, `+`, `\s?[km]?`-then-`\b`,
`\s?(years|months)` can accept, so `\d+` always matches its maximal run.
The greedy order of the optional pieces `\s?` and `[km]?` is preserved. -/
def matchQ (prev : Bool) (cs : List Char) : Option Nat :=
  if boundaryB prev cs = false then none else
  let d := (digitRun cs).length
  let rest := cs.drop d
  let a1 : Option Nat :=
    if 0 < d then
      match rest with
      | '%' :: r2 => if boundaryB false r2 then some (d + 1) else none
      | _ => none
    else none
  let a2 : Option Nat :=
    if 0 < d then
      match rest with
      | '+' :: r2 => if boundaryB false r2 then some (d + 1) else none
      | _ => none
    else none
  let a3 : Option Nat :=
    let off := if cs.head? == some '$' then 1 else 0
    let d3 := (digitRun (cs.drop off)).length
    if d3 = 0 then none else
    let p := off + d3
    let r := cs.drop p
    let withSpaceKM : Option Nat :=
      match r with
      | c1 :: c2 :: r2 =>
        if isSpaceRe c1 && (lowerList [c2] == ['k'] || lowerList [c2] == ['m'])
            && boundaryB true r2 then some (p + 2) else none
      | _ => none
    let withSpace : Option Nat :=
      match r with
      | c1 :: r2 => if isSpaceRe c1 && boundaryB false r2 then some (p + 1) else none
      | _ => none
    let withKM : Option Nat :=
      match r with
      | c1 :: r2 =>
        if (lowerList [c1] == ['k'] || lowerList [c1] == ['m'])
            && boundaryB true r2 then some (p + 1) else none
      | _ => none
    let bare : Option Nat := if boundaryB true r then some p else none
    withSpaceKM <|> withSpace <|> withKM <|> bare
  let a4 : Option Nat :=
    if d = 0 then none else
    let tryUnit : List Char → Nat → Option Nat := fun r extra =>
      if lowerList (r.take 5) == "years".data && boundaryB true (r.drop 5) then
        some (d + extra + 5)
      else if lowerList (r.take 6) == "months".data && boundaryB true (r.drop 6) then
        some (d + extra + 6)
      else none
    let withSpace : Option Nat :=
      match rest with
      | c1 :: r2 => if isSpaceRe c1 then tryUnit r2 1 else none
      | _ => none
    withSpace <|> tryUnit rest 0
  a1 <|> a2 <|> a3 <|> a4

/-- Scan of `re.findall` for the quantifier regex: try a match at each
position, on success continue after the consumed characters (every match
consumes at least one character), on failure advance one character.  `fuel`
bounds the number of steps; it starts at `length + 1`, which the scan can
never exhaust since every step consumes at least one character. -/
def countQAux : Nat → Bool → List Char → Nat
  | 0, _, _ => 0
  | _ + 1, _, [] => 0
  | fuel + 1, prev, c :: cs =>
    match matchQ prev (c :: cs) with
    | some k =>
      if k = 0 then countQAux fuel (isWordChar c) cs
      else 1 + countQAux fuel (isWordChar ((c :: cs).getD (k - 1) ' ')) ((c :: cs).drop k)
    | none => countQAux fuel (isWordChar c) cs

/-- `len(re.findall(r'\b(\d+%|\d+\+|\$?\d+\s?[km]?|\d+\s?(years|months))\b', text, re.I))`. -/
def countQ (text : String) : Nat := countQAux (text.data.length + 1) false text.data

/-- Source `check_quantifiable_results`: quantifier matches normalised by 3,
clamped to 1. -/
def check_quantifiable_results (text : String) : ℚ :=
  min ((countQ text : ℚ) / 3) 1

/-- Section headings looked up by `evaluate_structure`. -/
def structureSections : List String :=
  ["experience", "education", "skills", "summary", "projects"]

/-- `re.search(rf'\b{section}\b', text, re.I)` for a purely alphabetic
`section` word: since every character of the word is a `\w` character, an
occurrence with word boundaries on both sides is exactly a maximal `\w+` run
of the lower-cased text equal to the word. -/
def sectionFound (w : String) (text : String) : Bool :=
  (wordRuns (lowerList text.data)).any (fun r => r == w.data)

/-- One match attempt of `(\d{4})\s*-\s*(present|\d{4})` at the current
position.  `\s*` is deterministic here: it must consume the whole whitespace
run, because the character after it must be the non-whitespace `-` (resp.
`p` or a digit). -/
def dateMatchAt (cs : List Char) : Bool :=
  let d4 := cs.take 4
  if d4.length == 4 && d4.all Char.isDigit then
    match (cs.drop 4).dropWhile isSpaceRe with
    | '-' :: r3 =>
      let r4 := r3.dropWhile isSpaceRe
      r4.take 7 == "present".data ||
        ((r4.take 4).length == 4 && (r4.take 4).all Char.isDigit)
    | _ => false
  else false

/-- `re.search(r'(\d{4})\s*-\s*(present|\d{4})', text)` (no flags, so
`present` is matched case-sensitively): a match attempt at every position. -/
def dateSearch : List Char → Bool
  | [] => false
  | c :: cs => dateMatchAt (c :: cs) || dateSearch cs

/-- Source `evaluate_structure`: 0.2 per section heading found plus 0.2 for a
date range, clamped to 1.  The loop accumulation is modelled as
`count * (2/10)`, which equals the loop's sum in exact arithmetic. -/
def evaluate_structure (text : String) : ℚ :=
  let found := (structureSections.filter (fun s => sectionFound s text)).length
  let structure_score : ℚ :=
    (found : ℚ) * (2 / 10) + (if dateSearch text.data then 2 / 10 else 0)
  min structure_score 1

/-- Character class `[\w\.-]` of the email regex. -/
def emailClass (c : Char) : Bool := isWordChar c || c == '.' || c == '-'

/-- Scanner for `re.search(r'[\w\.-]+@[\w\.-]+', text)`: a match exists iff
some `@` has a class character immediately before it and immediately after
it (the `+` pieces need only one character each for existence). -/
def emailSearchAux : Bool → List Char → Bool
  | _, [] => false
  | prev, c :: cs =>
    (c == '@' && prev &&
      (match cs with
       | d :: _ => emailClass d
       | [] => false)) ||
    emailSearchAux (emailClass c) cs

/-- `re.search(r'[\w\.-]+@[\w\.-]+', text)` as a Boolean. -/
def emailSearch (cs : List Char) : Bool := emailSearchAux false cs

/-- Character class `[\d -]` of the phone regex. -/
def isPhoneClass (c : Char) : Bool := c.isDigit || c == ' ' || c == '-'

/-- `re.search(r'\+?\d[\d -]{8,}\d', text)` as a Boolean: a match exists iff
some digit is followed by a run of at least 9 class characters ending in a
digit (8 for the `{8,}` plus the final `\d`; the optional `+` prefix never
affects existence).  The class characters following the leading digit all
lie in its maximal class run, so it suffices to find a digit at offset at
least 9 inside that run. -/
def phoneSearch : List Char → Bool
  | [] => false
  | c :: cs =>
    (c.isDigit && ((cs.takeWhile isPhoneClass).drop 8).any Char.isDigit) ||
    phoneSearch cs

/-- `re.search(r'linkedin\.com|github\.com', text)` (no flags): a literal,
case-sensitive substring search. -/
def linkSearch (text : String) : Bool :=
  infixOf "linkedin.com".data text.data || infixOf "github.com".data text.data

/-- Source `check_contact_info`: one point each for an email match, a phone
match and a linkedin/github substring, divided by 3. -/
def check_contact_info (text : String) : ℚ :=
  let contact_items : Nat :=
    (emailSearch text.data).toNat + (phoneSearch text.data).toNat +
      (linkSearch text).toNat
  (contact_items : ℚ) / 3

/-- Source `check_length`: 1 for 400-800 words, 0.5 for 300-399 or 801-1000
words, else 0. -/
def check_length (text : String) : ℚ :=
  let word_count := wordCount text
  if 400 ≤ word_count ∧ word_count ≤ 800 then 1
  else if (300 ≤ word_count ∧ word_count < 400) ∨
      (800 < word_count ∧ word_count ≤ 1000) then 1 / 2
  else 0

/-- Source `calculate_ats_score`: the `ATS_PARAMETERS`-weighted sum of the
six sub-scores, scaled to 100 and clamped to 100.  The float weights 0.3,
0.15, 0.2, 0.15, 0.1, 0.1 are modelled by the exact rationals they denote. -/
def calculate_ats_score (text : String) : ℚ :=
  min ((calculate_keyword_density text * (3 / 10) +
        count_action_verbs text * (3 / 20) +
        check_quantifiable_results text * (1 / 5) +
        evaluate_structure text * (3 / 20) +
        check_contact_info text * (1 / 10) +
        check_length text * (1 / 10)) * 100) 100

/-- An apostrophe character, written via its code point to keep it out of
the source text of string literals. -/
def apos : String := String.mk [Char.ofNat 39]

/-- Feedback line for a score below 60. -/
def fbLow : String := "Your resume needs significant optimization to pass ATS screening."

/-- Feedback line for a score in [60, 80). -/
def fbMid : String := "Your resume is decent but could be improved for better ATS performance."

/-- Feedback line for a score of 80 or more. -/
def fbHigh : String := "Excellent! Your resume is well-optimized for ATS systems."

/-- Feedback line for low keyword density. -/
def fbKd : String := "🔍 Increase keyword density with more relevant skills."

/-- Feedback line for few action verbs. -/
def fbAv : String :=
  "💪 Add more action verbs like " ++ apos ++ "achieved" ++ apos ++ ", " ++
    apos ++ "managed" ++ apos ++ ", " ++ apos ++ "developed" ++ apos ++ "."

/-- Feedback line for few quantifiable results. -/
def fbQr : String :=
  "📊 Include quantifiable achievements (e.g., " ++ apos ++
    "increased sales by 30%" ++ apos ++ ")."

/-- Feedback line for weak structure. -/
def fbSt : String := "📑 Improve structure with clear section headings."

/-- Feedback line for incomplete contact info. -/
def fbCi : String := "📱 Ensure all contact info (email, phone, LinkedIn) is included."

/-- Feedback line for a resume below 400 words. -/
def tooShortLine : String := "📏 Resume is too short - aim for 400-800 words."

/-- Feedback line for a resume above 800 words. -/
def tooLongLine : String := "📏 Resume is too long - keep under 800 words."

/-- Source `generate_feedback`: one tier line by score, then one line per
weak sub-score, then a length line for fewer than 400 or more than 800
words, in source order. -/
def generate_feedback (score : ℚ) (text : String) : List String :=
  (if score < 60 then [fbLow] else if score < 80 then [fbMid] else [fbHigh]) ++
  (if calculate_keyword_density text < 1 / 2 then [fbKd] else []) ++
  (if count_action_verbs text < 1 / 2 then [fbAv] else []) ++
  (if check_quantifiable_results text < 1 / 2 then [fbQr] else []) ++
  (if evaluate_structure text < 7 / 10 then [fbSt] else []) ++
  (if check_contact_info text < 1 then [fbCi] else []) ++
  (if wordCount text < 400 then [tooShortLine]
   else if 800 < wordCount text then [tooLongLine] else [])

/-- Accumulator-based scanner for Python `str.split()`: split on whitespace,
discarding empty pieces; `acc` holds the reversed characters of the piece
being read. -/
def pySplitAux : List Char → List Char → List String
  | acc, [] => if acc.isEmpty then [] else [String.mk acc.reverse]
  | acc, c :: cs =>
    if isSpaceRe c then
      if acc.isEmpty then pySplitAux [] cs
      else String.mk acc.reverse :: pySplitAux [] cs
    else pySplitAux (c :: acc) cs

/-- Python `str.split()` with no argument: split on whitespace runs,
discarding empty pieces. -/
def pySplit (s : String) : List String := pySplitAux [] s.data

/-- Token set of one text as used by `calculate_match_score`:
`set(text.lower().split())`. -/
def tokenFinset (s : String) : Finset String := (pySplit (lowerStr s)).toFinset

/-- Round a rational to the nearest integer, halves to the even neighbour.
Models Python `round` on a value that the float computation represents
exactly; on inexactly-represented values Python rounds the nearest binary
float, which can differ from the exact rational by one last ulp — the usual
price of modelling floats by `ℚ`. -/
def roundHalfEven (q : ℚ) : ℤ :=
  let n := ⌊q⌋
  let f := q - (n : ℚ)
  if f < 1 / 2 then n
  else if 1 / 2 < f then n + 1
  else if n % 2 = 0 then n else n + 1

/-- Python `round(x, 2)`: round to two decimal places. -/
def round2 (q : ℚ) : ℚ := (roundHalfEven (q * 100) : ℚ) / 100

/-- Source `calculate_match_score`: lower-case and whitespace-split both
texts, form sets, divide the size of the intersection by the size of the
job-description set, scale to 100, round to two decimals and clamp to 100.
The source has no guard for an empty job-description set and raises
`ZeroDivisionError` there; the embedding returns `none` in that case. -/
def calculate_match_score (resume_text job_desc_text : String) : Option ℚ :=
  let resume_words := tokenFinset resume_text
  let job_desc_words := tokenFinset job_desc_text
  if job_desc_words = ∅ then none
  else
    let common_words := resume_words ∩ job_desc_words
    let match_percentage : ℚ :=
      ((common_words.card : ℚ) / (job_desc_words.card : ℚ)) * 100
    some (min (round2 match_percentage) 100)

/-- Spec-side match scorer following the amended reading of the spec: token
sets are the lower-cased whitespace-separated words of each text, the score
is the shared-token count over the job-description token count, scaled to
100, rounded to two decimals and clamped to 100, and the empty
job-description token set yields no defined score. -/
def specMatchLower (resume_text job_desc_text : String) : Option ℚ :=
  let r := tokenFinset resume_text
  let j := tokenFinset job_desc_text
  if j = ∅ then none
  else
    some (min (round2 (100 * ((j.filter (fun w => w ∈ r)).card : ℚ) / (j.card : ℚ))) 100)

/-- Claim-side match scorer following the original C2 wording: the token
sets are formed from the original-case whitespace-separated words of each
text (no lower-casing before splitting). -/
def specMatchNoLower (resume_text job_desc_text : String) : Option ℚ :=
  let r := (pySplit resume_text).toFinset
  let j := (pySplit job_desc_text).toFinset
  if j = ∅ then none
  else
    some (min (round2 (100 * ((j.filter (fun w => w ∈ r)).card : ℚ) / (j.card : ℚ))) 100)

/-- Section-word blacklist of `extract_name`. -/
def blacklist : List String :=
  ["RESUME", "SUMMARY", "SKILLS", "PROJECTS", "EDUCATION", "EXPERIENCE",
   "CERTIFICATIONS"]

/-- Accumulator-based scanner pairing each maximal `\w+` run with the gap of
non-`\w` characters that follows it: `run` holds the reversed characters of
the run being read, `gap` the reversed characters of the gap being read
(only meaningful once a run has started). -/
def runsWithGapsAux : List Char → List Char → List Char →
    List (List Char × List Char)
  | run, gap, [] => if run.isEmpty then [] else [(run.reverse, gap.reverse)]
  | run, gap, c :: cs =>
    if isWordChar c then
      if run.isEmpty then runsWithGapsAux [c] [] cs
      else if gap.isEmpty then runsWithGapsAux (c :: run) [] cs
      else (run.reverse, gap.reverse) :: runsWithGapsAux [c] [] cs
    else
      if run.isEmpty then runsWithGapsAux [] [] cs
      else runsWithGapsAux run (c :: gap) cs

/-- The maximal `\w+` runs of a text paired with the gap of non-`\w`
characters that follows each run. -/
def runsWithGaps (cs : List Char) : List (List Char × List Char) :=
  runsWithGapsAux [] [] cs

/-- A word the name regex `[A-Z][A-Z]+` can accept in full: at least two
characters, all ASCII upper-case letters.  Because `\b` never holds inside a
`\w+` run and `\s+` never matches right after a partial run, each word of a
match of `\b([A-Z][A-Z]+(?:\s+[A-Z][A-Z]+){1,3})\b` is exactly a maximal
`\w+` run that is all upper-case of length at least two. -/
def validWord (w : List Char) : Bool := 2 ≤ w.length && w.all Char.isUpper

/-- Greedily chain up to `budget` further words onto a name candidate:
each step needs a non-empty all-whitespace gap (`\s+`) and a valid word.
Returns the matched characters (gaps included, as the regex match holds the
whitespace it consumed) and the number of items consumed. -/
def chainWords : Nat → List Char → List (List Char × List Char) →
    List Char × Nat
  | 0, _, _ => ([], 0)
  | _ + 1, _, [] => ([], 0)
  | budget + 1, gap, (w, g) :: rest =>
    if gap ≠ [] && gap.all isSpaceRe && validWord w then
      let (tailChars, k) := chainWords budget g rest
      (gap ++ w ++ tailChars, k + 1)
    else ([], 0)

/-- The source loop filter on a candidate: every whitespace-separated word
avoids the blacklist (`all(word not in blacklist ...)`) and the candidate
contains no digit (`not re.search(r'\d', match)`). -/
def candValid (cand : List Char) : Bool :=
  (pySplit (String.mk cand)).all (fun w => !blacklist.contains w) &&
    !cand.any Char.isDigit

/-- The scan of `re.findall` for the name regex combined with the source
filter loop: at each run, greedily take up to three further whitespace-linked
valid words (`{1,3}`); with at least two words in total this is the next
non-overlapping match.  A match passing the filter is returned; a failing
match is skipped whole (scanning resumes after it).  The trailing `\b`
always holds because a valid word is a maximal `\w+` run. -/
def nameScanAux : Nat → List (List Char × List Char) → Option (List Char)
  | 0, _ => none
  | _ + 1, [] => none
  | fuel + 1, (w, g) :: rest =>
    if validWord w then
      let (tailChars, k) := chainWords 3 g rest
      if 1 ≤ k then
        let cand := w ++ tailChars
        if candValid cand then some cand
        else nameScanAux fuel (rest.drop k)
      else nameScanAux fuel rest
    else nameScanAux fuel rest

/-- The name scan with enough fuel to never run out (every step consumes at
least one item of the list). -/
def nameScan (items : List (List Char × List Char)) : Option (List Char) :=
  nameScanAux (items.length + 1) items

/-- Python `str.title()` (ASCII): upper-case a letter that follows a
non-letter, lower-case a letter that follows a letter. -/
def titleAux : Bool → List Char → List Char
  | _, [] => []
  | prev, c :: cs =>
    if c.isAlpha then
      (if prev then c.toLower else c.toUpper) :: titleAux true cs
    else c :: titleAux false cs

/-- Python `str.title()` on a character list. -/
def titleList (cs : List Char) : List Char := titleAux false cs

/-- Source `extract_name`: first acceptable match of
`\b([A-Z][A-Z]+(?:\s+[A-Z][A-Z]+){1,3})\b`, title-cased; else `"Not Found"`. -/
def extract_name (text : String) : String :=
  match nameScan (runsWithGaps text.data) with
  | some cand => String.mk (titleList cand)
  | none => "Not Found"

/-- Chain exactly `n` further words for the claim-side candidate
enumeration, or fail. -/
def chainExact : Nat → List Char → List (List Char × List Char) →
    Option (List Char)
  | 0, _, _ => some []
  | _ + 1, _, [] => none
  | n + 1, gap, (w, g) :: rest =>
    if gap ≠ [] && gap.all isSpaceRe && validWord w then
      (chainExact n g rest).map (fun t => gap ++ w ++ t)
    else none

/-- All sequences of 2 to 4 consecutive whitespace-separated ALL-CAPS words,
enumerated leftmost start first (longer sequences first at each start). -/
def specStarts : List (List Char × List Char) → List (List Char)
  | [] => []
  | (w, g) :: rest =>
    (if validWord w then
      [3, 2, 1].filterMap (fun n => (chainExact n g rest).map (fun t => w ++ t))
     else []) ++ specStarts rest

/-- Claim-side name extractor following the C9 wording: the first sequence
of 2-4 consecutive ALL-CAPS words that contains no blacklisted word and no
digit, title-cased; `none` when no such sequence exists. -/
def specNameFirstValid (text : String) : Option String :=
  (((specStarts (runsWithGaps text.data)).filter candValid).head?).map
    (fun c => String.mk (titleList c))

/-- A 500-word resume text that satisfies all the side conditions of the
end-to-end claim (an email address, the quantified bullet
"increased sales by 30%", an "Experience" heading) while repeating the
stop-word "i" for padding, keeping every sub-score low. -/
def cexResume : String :=
  "Experience increased sales by 30% a@b.c" ++
    String.join (List.replicate 492 " i")

/-- A 500-word resume text with all five section headings, a date range,
six action verbs, an email, a phone number, a linkedin URL, the quantified
bullet and an "Experience" heading. -/
def goodResume : String :=
  "Experience Education Skills Summary Projects achieved managed " ++
    "developed led implemented increased sales by 30% contact a@b.cd " ++
    "1234567890 linkedin.com 2019 - 2021" ++
    String.join (List.replicate 477 " i")

/-- A text of exactly `n` one-letter words, for instantiating word-count
hypotheses. -/
def padText (n : Nat) : String := String.join (List.replicate n "a ")

/-- Helper: the keyword-density sub-score lies in [0, 1]. -/
theorem keyword_density_mem (t : String) :
    0 ≤ calculate_keyword_density t ∧ calculate_keyword_density t ≤ 1 := by
  simp only [calculate_keyword_density]
  exact ⟨le_min (by positivity) (by norm_num), min_le_right _ _⟩

/-- Helper: the action-verb sub-score lies in [0, 1]. -/
theorem action_verbs_mem (t : String) :
    0 ≤ count_action_verbs t ∧ count_action_verbs t ≤ 1 := by
  simp only [count_action_verbs]
  exact ⟨le_min (by positivity) (by norm_num), min_le_right _ _⟩

/-- Helper: the quantifiable-results sub-score lies in [0, 1]. -/
theorem quantifiable_results_mem (t : String) :
    0 ≤ check_quantifiable_results t ∧ check_quantifiable_results t ≤ 1 := by
  simp only [check_quantifiable_results]
  exact ⟨le_min (by positivity) (by norm_num), min_le_right _ _⟩

/-- Helper: the structure sub-score lies in [0, 1]. -/
theorem structure_mem (t : String) :
    0 ≤ evaluate_structure t ∧ evaluate_structure t ≤ 1 := by
  simp only [evaluate_structure]
  refine ⟨le_min ?_ (by norm_num), min_le_right _ _⟩
  split_ifs <;> positivity

/-- Helper: the contact-info sub-score lies in [0, 1]. -/
theorem contact_info_mem (t : String) :
    0 ≤ check_contact_info t ∧ check_contact_info t ≤ 1 := by
  simp only [check_contact_info]
  constructor
  · positivity
  · rw [div_le_one (by norm_num)]
    have hb : ∀ b : Bool, ((b.toNat : ℚ) ≤ 1) := by
      intro b; cases b <;> norm_num
    push_cast
    have h1 := hb (emailSearch t.data)
    have h2 := hb (phoneSearch t.data)
    have h3 := hb (linkSearch t)
    linarith

/-- Helper: the length sub-score lies in [0, 1]. -/
theorem length_mem (t : String) :
    0 ≤ check_length t ∧ check_length t ≤ 1 := by
  simp only [check_length]
  split_ifs <;> norm_num

/-- C3: for every text, the ATS score returned by `calculate_ats_score` lies
between 0 and 100. -/
theorem c3_ats_score_range (text : String) :
    0 ≤ calculate_ats_score text ∧ calculate_ats_score text ≤ 100 := by
  have h1 := (keyword_density_mem text).1
  have h2 := (action_verbs_mem text).1
  have h3 := (quantifiable_results_mem text).1
  have h4 := (structure_mem text).1
  have h5 := (contact_info_mem text).1
  have h6 := (length_mem text).1
  simp only [calculate_ats_score]
  exact ⟨le_min (by nlinarith) (by norm_num), min_le_right _ _⟩

/-- C6: for every text, each of the six ATS feature extractors returns a
value in [0, 1]. -/
theorem c6_extractors_unit_interval (text : String) :
    (0 ≤ calculate_keyword_density text ∧ calculate_keyword_density text ≤ 1) ∧
    (0 ≤ count_action_verbs text ∧ count_action_verbs text ≤ 1) ∧
    (0 ≤ check_quantifiable_results text ∧ check_quantifiable_results text ≤ 1) ∧
    (0 ≤ evaluate_structure text ∧ evaluate_structure text ≤ 1) ∧
    (0 ≤ check_contact_info text ∧ check_contact_info text ≤ 1) ∧
    (0 ≤ check_length text ∧ check_length text ≤ 1) :=
  ⟨keyword_density_mem text, action_verbs_mem text, quantifiable_results_mem text,
   structure_mem text, contact_info_mem text, length_mem text⟩

/-- C8: on the empty string every one of the six sub-score extractors
returns 0 and `calculate_ats_score` returns exactly 0; all are total Lean
functions, so no computation fails. -/
theorem c8_empty_text_scores_zero :
    calculate_ats_score "" = 0 ∧
    calculate_keyword_density "" = 0 ∧
    count_action_verbs "" = 0 ∧
    check_quantifiable_results "" = 0 ∧
    evaluate_structure "" = 0 ∧
    check_contact_info "" = 0 ∧
    check_length "" = 0 := by
  decide!

/-- C1: for every resume text, the match scorer applied to an empty
job-description text has no defined result: the source divides by the size
of the empty token set and raises `ZeroDivisionError` (modelled by `none`),
rather than returning the score 0 required by the specification. -/
theorem c1_empty_jd_has_no_result (resume_text : String) :
    calculate_match_score resume_text "" = none := rfl

/-- C7: the length sub-score is 1 exactly on word counts in [400, 800], 1/2
on [300, 400) and (800, 1000], and 0 otherwise; in particular 400 and 800
give 1, 399 and 801 give 1/2, and 250 and 1001 give 0. -/
theorem c7_length_buckets (text : String) :
    (400 ≤ wordCount text ∧ wordCount text ≤ 800 → check_length text = 1) ∧
    ((300 ≤ wordCount text ∧ wordCount text < 400) ∨
      (800 < wordCount text ∧ wordCount text ≤ 1000) → check_length text = 1 / 2) ∧
    (wordCount text < 300 ∨ 1000 < wordCount text → check_length text = 0) := by
  refine ⟨fun h => ?_, fun h => ?_, fun h => ?_⟩ <;>
    simp only [check_length] <;>
    split_ifs <;>
    first
    | rfl
    | (exfalso; omega)

/-- C7 witness: the six boundary word counts 400, 800, 399, 801, 250 and
1001 from the claim, on concrete texts of exactly those word counts. -/
theorem c7_length_buckets_witness :
    check_length (padText 400) = 1 ∧ check_length (padText 800) = 1 ∧
    check_length (padText 399) = 1 / 2 ∧ check_length (padText 801) = 1 / 2 ∧
    check_length (padText 250) = 0 ∧ check_length (padText 1001) = 0 :=
  ⟨(c7_length_buckets (padText 400)).1 (by decide!),
   (c7_length_buckets (padText 800)).1 (by decide!),
   (c7_length_buckets (padText 399)).2.1 (by decide!),
   (c7_length_buckets (padText 801)).2.1 (by decide!),
   (c7_length_buckets (padText 250)).2.2 (by decide!),
   (c7_length_buckets (padText 1001)).2.2 (by decide!)⟩

/-- C10: the match score is invariant under changes of letter case in either
input.  Two texts differ only in the case of letters exactly when their
lower-casings coincide, so case-equivalence is stated as equality of
`lowerStr` images. -/
theorem c10_match_score_case_invariant (r r2 j j2 : String)
    (hr : lowerStr r = lowerStr r2) (hj : lowerStr j = lowerStr j2)
    (_hne : tokenFinset j ≠ ∅) :
    calculate_match_score r j = calculate_match_score r2 j2 := by
  unfold calculate_match_score tokenFinset
  rw [hr, hj]

/-- C10 witness: concrete case-variant inputs with a non-empty
job-description token set. -/
theorem c10_match_score_case_invariant_witness :
    lowerStr "Ab c" = lowerStr "aB C" ∧ lowerStr "AB x" = lowerStr "ab X" ∧
    tokenFinset "AB x" ≠ ∅ ∧
    calculate_match_score "Ab c" "AB x" = calculate_match_score "aB C" "ab X" :=
  ⟨by decide!, by decide!, by decide!,
   c10_match_score_case_invariant "Ab c" "aB C" "AB x" "ab X"
     (by decide!) (by decide!) (by decide!)⟩

/-- C2 counterexample: the claim says the intersected token sets keep the
original case, under which the resume "A" and the job description "a" share
no token and score 0 (`specMatchNoLower`); the source lower-cases first and
scores 100. -/
theorem c2_counterexample_case_is_folded :
    calculate_match_score "A" "a" = some 100 ∧
    specMatchNoLower "A" "a" = some 0 := by
  constructor <;> decide!

/-- C2 amended: the match scorer tokenises both texts by naive whitespace
split after lower-casing them, and agrees everywhere with the spec-side
scorer built from the lower-cased token sets. -/
theorem c2_amended_tokens_lowercased (r j : String) :
    calculate_match_score r j = specMatchLower r j := by
  simp only [calculate_match_score, specMatchLower]
  split_ifs with h
  · rfl
  · have : (tokenFinset j).filter (fun w => w ∈ tokenFinset r) =
        tokenFinset r ∩ tokenFinset j := by
      rw [Finset.filter_mem_eq_inter, Finset.inter_comm]
    rw [this]
    congr 2
    rw [div_mul_eq_mul_div, mul_comm]

/-- C5 counterexample: with token sets of sizes |∩| = 1 and |jobdesc| = 3
the source returns `round(100/3, 2) = 33.33`, not the claimed unrounded
`clamp(100 * 1/3, 100) = 100/3`. -/
theorem c5_counterexample_rounding :
    (tokenFinset "a b c" ∩ tokenFinset "a x y").card = 1 ∧
    (tokenFinset "a x y").card = 3 ∧
    calculate_match_score "a b c" "a x y" = some (3333 / 100) ∧
    calculate_match_score "a b c" "a x y" ≠ some (min ((1 / 3 : ℚ) * 100) 100) := by
  refine ⟨by decide!, by decide!, by decide!, ?_⟩
  intro h
  have h2 : calculate_match_score "a b c" "a x y" = some (3333 / 100) := by decide!
  rw [h2] at h
  have h3 : (min ((1 / 3 : ℚ) * 100) 100) = 100 / 3 := by norm_num
  rw [h3] at h
  norm_num at h

/-- C5 amended: on a non-empty job-description token set the match score is
`clamp(round2(|resume ∩ jobdesc| / |jobdesc| * 100), 100)` — the claimed
formula with the source's rounding to two decimals — and it therefore
depends only on the size of the intersection and the size of the
job-description token set. -/
theorem c5_amended_match_formula (r j : String) (h : tokenFinset j ≠ ∅) :
    calculate_match_score r j =
      some (min (round2 (((tokenFinset r ∩ tokenFinset j).card : ℚ) /
        ((tokenFinset j).card : ℚ) * 100)) 100) ∧
    ∀ r2 j2 : String, tokenFinset j2 ≠ ∅ →
      (tokenFinset r2 ∩ tokenFinset j2).card = (tokenFinset r ∩ tokenFinset j).card →
      (tokenFinset j2).card = (tokenFinset j).card →
      calculate_match_score r2 j2 = calculate_match_score r j := by
  constructor
  · simp only [calculate_match_score]
    rw [if_neg h]
  · intro r2 j2 h2 hcap hcard
    simp only [calculate_match_score]
    rw [if_neg h, if_neg h2, hcap, hcard]

/-- C5 witness: two input pairs with resume token sets of different sizes
but the same intersection size 1 and job-description size 3 receive the
same score 33.33. -/
theorem c5_amended_match_formula_witness :
    tokenFinset "a x y" ≠ ∅ ∧
    calculate_match_score "a b" "a x y" = some (3333 / 100) ∧
    calculate_match_score "a c d e f g" "a p q" = calculate_match_score "a b" "a x y" :=
  ⟨by decide!,
   ((c5_amended_match_formula "a b" "a x y" (by decide!)).1).trans (by decide!),
   (c5_amended_match_formula "a b" "a x y" (by decide!)).2 "a c d e f g" "a p q"
     (by decide!) (by decide!) (by decide!)⟩

/-- Helper: membership in a conditional singleton chunk of the feedback
list forces equality with its element. -/
theorem mem_ite_singleton {p : Prop} [Decidable p] {s a : String}
    (h : s ∈ (if p then [a] else ([] : List String))) : s = a := by
  split at h
  · simpa using h
  · simp at h

/-- Helper: membership in the three-way tier chunk of the feedback list
forces equality with one of its three lines. -/
theorem mem_tier {p q : Prop} [Decidable p] [Decidable q] {s a b c : String}
    (h : s ∈ (if p then [a] else if q then [b] else [c])) :
    s = a ∨ s = b ∨ s = c := by
  split at h
  · simp at h; exact Or.inl h
  · split at h
    · simp at h; exact Or.inr (Or.inl h)
    · simp at h; exact Or.inr (Or.inr h)

/-- C4 counterexample: a 500-word text containing an email address, the
quantified bullet "increased sales by 30%" and an "Experience" heading whose
ATS score is 29, not above 50: the text repeats the stop-word "i", so the
keyword-density, action-verb, quantifiable, structure and contact sub-scores
all stay low. -/
theorem c4_counterexample_low_scoring_500_words :
    wordCount cexResume = 500 ∧
    emailSearch cexResume.data = true ∧
    infixOf "increased sales by 30%".data cexResume.data = true ∧
    sectionFound "experience" cexResume = true ∧
    calculate_ats_score cexResume = 29 ∧
    ¬ 50 < calculate_ats_score cexResume := by
  refine ⟨by decide!, by decide!, by decide!, by decide!, by decide!, ?_⟩
  have h : calculate_ats_score cexResume = 29 := by decide!
  rw [h]
  norm_num

/-- C4 amended: for every text of exactly 500 words the generated feedback
contains neither the "too short" nor the "too long" line; the ATS score of
such a text need not exceed 50 in general, but the representative 500-word
résumé `goodResume` (email, quantified bullet, "Experience" heading) scores
80.2 > 50. -/
theorem c4_amended_feedback_and_representative_score :
    (∀ text : String, wordCount text = 500 →
      tooShortLine ∉ generate_feedback (calculate_ats_score text) text ∧
      tooLongLine ∉ generate_feedback (calculate_ats_score text) text) ∧
    (wordCount goodResume = 500 ∧
     emailSearch goodResume.data = true ∧
     infixOf "increased sales by 30%".data goodResume.data = true ∧
     sectionFound "experience" goodResume = true ∧
     50 < calculate_ats_score goodResume) := by
  constructor
  · intro text h
    constructor <;>
    · intro hmem
      simp only [generate_feedback, List.mem_append] at hmem
      rcases hmem with ((((((h1 | h2) | h3) | h4) | h5) | h6) | h7)
      · rcases mem_tier h1 with he | he | he <;> revert he <;> decide!
      · have := mem_ite_singleton h2; revert this; decide!
      · have := mem_ite_singleton h3; revert this; decide!
      · have := mem_ite_singleton h4; revert this; decide!
      · have := mem_ite_singleton h5; revert this; decide!
      · have := mem_ite_singleton h6; revert this; decide!
      · rw [h] at h7; norm_num at h7
  · refine ⟨by decide!, by decide!, by decide!, by decide!, ?_⟩
    have h : calculate_ats_score goodResume = 401 / 5 := by decide!
    rw [h]
    norm_num

/-- C4 witness: the universal feedback part of the amended claim applied to
the concrete 500-word fixture. -/
theorem c4_amended_feedback_witness :
    wordCount goodResume = 500 ∧
    tooShortLine ∉ generate_feedback (calculate_ats_score goodResume) goodResume ∧
    tooLongLine ∉ generate_feedback (calculate_ats_score goodResume) goodResume :=
  ⟨by decide!,
   (c4_amended_feedback_and_representative_score.1 goodResume (by decide!)).1,
   (c4_amended_feedback_and_representative_score.1 goodResume (by decide!)).2⟩

/-- C9 counterexample: in "RESUME JOHN SMITH" the first sequence of 2-4
consecutive ALL-CAPS words with no blacklisted word and no digit is
"JOHN SMITH" (claim-side reading `specNameFirstValid`), so the claim demands
"John Smith"; the source regex greedily consumes "RESUME JOHN SMITH" as one
candidate, rejects it for the blacklisted "RESUME", and returns
"Not Found". -/
theorem c9_counterexample_greedy_absorption :
    specNameFirstValid "RESUME JOHN SMITH" = some "John Smith" ∧
    extract_name "RESUME JOHN SMITH" = "Not Found" := by
  constructor <;> decide!

/-- C9 amended: name extraction scans the non-overlapping greedy regex
candidates (each up to four consecutive whitespace-separated ALL-CAPS
words) and returns the first whose words all avoid the blacklist and which
contains no digit, title-cased, else "Not Found".  "JOHN SMITH" alone or
inside lower-case text yields "John Smith" and "RESUME SUMMARY" yields
"Not Found", but a valid name absorbed into a rejected greedy candidate
(e.g. directly after "RESUME") is missed. -/
theorem c9_name_extraction_cases :
    extract_name "JOHN SMITH" = "John Smith" ∧
    extract_name "hello JOHN SMITH bye" = "John Smith" ∧
    extract_name "RESUME SUMMARY" = "Not Found" ∧
    extract_name "AA BB CC SKILLS JOHN SMITH" = "John Smith" := by
  refine ⟨by decide!, by decide!, by decide!, by decide!⟩
